import Mathlib

/-!
Verification of the InstantSplat task-orchestration core: a shallow
embedding of `task_manager.py` (the in-memory task registry and its
mutating operations) and `reconstruction_processor.py` (the pipeline
executor), together with theorems settling the specification claims.

Modelling conventions:
* Python `datetime` timestamps are rationals (seconds); every operation
  that reads the wall clock takes the current time `now : ℚ` explicitly.
* The registry dict `self.tasks` is an association list keyed by task id;
  `insertTask` has Python-dict assignment semantics (replace or append).
* Opaque string-keyed dicts (`input_data`, `result_data`, `details`,
  `files`, `metrics`) are association lists of strings.
* `uuid.uuid4()` is an explicit `fresh_uuid` parameter; its uniqueness
  is a hypothesis where a theorem needs it.
* Subprocess outcomes and the filesystem are an explicit environment
  (`SceneEnv`); progress-callback invocations are collected in a trace.
-/

namespace InstantSplat

/-- Task status enumeration (`TaskStatus` in `task_manager.py`). -/
inductive TaskStatus where
  | pending
  | uploading
  | validating
  | extracting
  | processing
  | rendering
  | completed
  | failed
  | cancelled
deriving DecidableEq, Repr

/-- Task type enumeration (`TaskType` in `task_manager.py`). -/
inductive TaskType where
  | video_reconstruction
  | image_reconstruction
deriving DecidableEq, Repr

/-- Opaque string-keyed dictionary. -/
abbrev StrMap := List (String × String)

/-- `dict.get` on a string map. -/
def lookupStr (m : StrMap) (k : String) : Option String :=
  match m with
  | [] => none
  | (k1, v) :: rest => if k1 = k then some v else lookupStr rest k

/-- Progress record (`TaskProgress` dataclass). -/
structure TaskProgress where
  current_step : String := ""
  total_steps : Int := 0
  completed_steps : Int := 0
  percentage : ℚ := 0
  message : String := ""
  estimated_time_remaining : Option ℚ := none
  details : StrMap := []
deriving DecidableEq, Repr

/-- Task record (`TaskInfo` dataclass). -/
structure TaskInfo where
  task_id : String
  task_type : TaskType
  status : TaskStatus
  created_at : ℚ
  updated_at : ℚ
  progress : TaskProgress
  input_data : StrMap
  result_data : Option StrMap := none
  error_message : Option String := none
  processing_time : Option ℚ := none
deriving DecidableEq, Repr

/-- The registry dict `self.tasks` keyed by task id. -/
abbrev TaskMap := List (String × TaskInfo)

/-- `self.tasks.get(task_id)`. -/
def lookupTask (tm : TaskMap) (task_id : String) : Option TaskInfo :=
  match tm with
  | [] => none
  | (k, v) :: rest => if k = task_id then some v else lookupTask rest task_id

/-- `self.tasks[task_id] = task_info` (replace-or-append, dict semantics). -/
def insertTask (tm : TaskMap) (task_id : String) (t : TaskInfo) : TaskMap :=
  match tm with
  | [] => [(task_id, t)]
  | (k, v) :: rest =>
    if k = task_id then (task_id, t) :: rest else (k, v) :: insertTask rest task_id t

/-- `TaskManager.get_task`. -/
def get_task (tm : TaskMap) (task_id : String) : Option TaskInfo :=
  lookupTask tm task_id

/-- `TaskManager.create_task`: uses `input_data['task_id']` when present,
otherwise the freshly generated uuid; stores a new `PENDING` record under
that id (overwriting any record already there, by dict semantics). -/
def create_task (tm : TaskMap) (task_type : TaskType) (input_data : StrMap)
    (fresh_uuid : String) (now : ℚ) : TaskMap × String :=
  let task_id := (lookupStr input_data "task_id").getD fresh_uuid
  let task_info : TaskInfo :=
    { task_id := task_id
      task_type := task_type
      status := .pending
      created_at := now
      updated_at := now
      progress := {}
      input_data := input_data }
  (insertTask tm task_id task_info, task_id)

/-- Python truthiness of an optional string (`if error_message:`):
`None` and the empty string are falsy. -/
def pyTruthy : Option String → Bool
  | none => false
  | some s => !(s == "")

/-- `TaskManager.update_task_status`: unconditionally writes the new
status (no terminal-state check), stores a truthy error message, and
computes `processing_time` when the new status is COMPLETED or FAILED. -/
def update_task_status (tm : TaskMap) (task_id : String) (status : TaskStatus)
    (error_message : Option String) (now : ℚ) : TaskMap × Bool :=
  match lookupTask tm task_id with
  | none => (tm, false)
  | some task =>
    let task := { task with status := status, updated_at := now }
    let task :=
      if pyTruthy error_message then { task with error_message := error_message } else task
    let task :=
      if status ∈ [TaskStatus.completed, TaskStatus.failed] then
        { task with processing_time := some (now - task.created_at) }
      else task
    (insertTask tm task_id task, true)

/-- The percentage computation inside `TaskManager.update_task_progress`:
`(completed_steps / total_steps * 100) if total_steps > 0 else 0`. -/
def percentage (completed_steps total_steps : Int) : ℚ :=
  if total_steps > 0 then (completed_steps : ℚ) / (total_steps : ℚ) * 100 else 0

/-- `TaskManager.update_task_progress`: recomputes the percentage and the
estimated remaining time and replaces the whole progress record. -/
def update_task_progress (tm : TaskMap) (task_id : String) (current_step : String)
    (completed_steps total_steps : Int) (message : String) (details : StrMap)
    (now : ℚ) : TaskMap × Bool :=
  match lookupTask tm task_id with
  | none => (tm, false)
  | some task =>
    let pct := percentage completed_steps total_steps
    let estimated_time : Option ℚ :=
      if completed_steps > 0 ∧ pct < 100 then
        some ((now - task.created_at) / (completed_steps : ℚ) *
          ((total_steps : ℚ) - (completed_steps : ℚ)))
      else none
    let task :=
      { task with
          progress :=
            { current_step := current_step
              total_steps := total_steps
              completed_steps := completed_steps
              percentage := pct
              message := message
              estimated_time_remaining := estimated_time
              details := details }
          updated_at := now }
    (insertTask tm task_id task, true)

/-- `TaskManager.set_task_result`: stores the result payload, forces the
status to COMPLETED, and computes `processing_time` (the guard
`if task.created_at:` is always true for a datetime). -/
def set_task_result (tm : TaskMap) (task_id : String) (result_data : StrMap)
    (now : ℚ) : TaskMap × Bool :=
  match lookupTask tm task_id with
  | none => (tm, false)
  | some task =>
    let task :=
      { task with result_data := some result_data, status := .completed, updated_at := now }
    let task := { task with processing_time := some (now - task.created_at) }
    (insertTask tm task_id task, true)

/-- A `setattr(task, field_name, field_value)` call on a `TaskInfo`
record: one constructor per assignable field. -/
inductive FieldAssignment where
  | fStatus (v : TaskStatus)
  | fTaskId (v : String)
  | fTaskType (v : TaskType)
  | fCreatedAt (v : ℚ)
  | fUpdatedAt (v : ℚ)
  | fProgress (v : TaskProgress)
  | fInputData (v : StrMap)
  | fResultData (v : Option StrMap)
  | fErrorMessage (v : Option String)
  | fProcessingTime (v : Option ℚ)
deriving DecidableEq, Repr

/-- `setattr` on the task record. -/
def setattrField (t : TaskInfo) : FieldAssignment → TaskInfo
  | .fStatus v => { t with status := v }
  | .fTaskId v => { t with task_id := v }
  | .fTaskType v => { t with task_type := v }
  | .fCreatedAt v => { t with created_at := v }
  | .fUpdatedAt v => { t with updated_at := v }
  | .fProgress v => { t with progress := v }
  | .fInputData v => { t with input_data := v }
  | .fResultData v => { t with result_data := v }
  | .fErrorMessage v => { t with error_message := v }
  | .fProcessingTime v => { t with processing_time := v }

/-- Reads back the field targeted by an assignment and compares it with
the assigned value. -/
def fieldHolds (a : FieldAssignment) (t : TaskInfo) : Bool :=
  match a with
  | .fStatus v => decide (t.status = v)
  | .fTaskId v => decide (t.task_id = v)
  | .fTaskType v => decide (t.task_type = v)
  | .fCreatedAt v => decide (t.created_at = v)
  | .fUpdatedAt v => decide (t.updated_at = v)
  | .fProgress v => decide (t.progress = v)
  | .fInputData v => decide (t.input_data = v)
  | .fResultData v => decide (t.result_data = v)
  | .fErrorMessage v => decide (t.error_message = v)
  | .fProcessingTime v => decide (t.processing_time = v)

/-- Whether an assignment targets the `updated_at` field. -/
def targetsUpdatedAt : FieldAssignment → Bool
  | .fUpdatedAt _ => true
  | _ => false

/-- `TaskManager.set_field`: `setattr` the named field, then overwrite
`updated_at` with the current time; no status check of any kind. -/
def set_field (tm : TaskMap) (task_id : String) (a : FieldAssignment)
    (now : ℚ) : TaskMap × Bool :=
  match lookupTask tm task_id with
  | none => (tm, false)
  | some task =>
    let task := setattrField task a
    let task := { task with updated_at := now }
    (insertTask tm task_id task, true)

/-- `TaskManager.cancel_task`: refuses (returns `False`, mutating
nothing) when the task is absent or already COMPLETED/FAILED/CANCELLED;
otherwise sets the status to CANCELLED. It never touches
`processing_time`. -/
def cancel_task (tm : TaskMap) (task_id : String) (now : ℚ) : TaskMap × Bool :=
  match lookupTask tm task_id with
  | none => (tm, false)
  | some task =>
    if task.status ∈ [TaskStatus.completed, TaskStatus.failed, TaskStatus.cancelled] then
      (tm, false)
    else
      (insertTask tm task_id { task with status := .cancelled, updated_at := now }, true)

/-- Processing configuration (`ProcessingConfig` in `config.py`). -/
structure ProcessingConfig where
  init_timeout : ℚ := 300
  train_timeout : ℚ := 1800
  render_timeout : ℚ := 600
  iterations : Nat := 500
deriving DecidableEq, Repr

/-- Pipeline stages whose subprocess is actually launched. -/
inductive Stage where
  | geometry_initialization
  | training
  | rendering
deriving DecidableEq, Repr

/-- Environment of one `process_reconstruction` run: the filesystem
facts and subprocess outcomes the code observes. `train_elapsed_samples`
are the successive `time.time() - start_time` readings taken by the
training monitor loop while the child process is still alive. -/
structure SceneEnv where
  images_dir_exists : Bool
  num_images : Nat
  init_ok : Bool
  train_elapsed_samples : List ℚ
  train_exit_ok : Bool
  wall_time : ℚ
  collected_files : StrMap
  metrics : StrMap
deriving DecidableEq, Repr

/-- `ReconstructionResult` dataclass. -/
structure ReconstructionResult where
  success : Bool
  output_dir : String
  metrics : StrMap
  files : StrMap
  processing_time : ℚ
  error_message : Option String := none
deriving DecidableEq, Repr

/-- The training-stage progress ramp:
`min(0.30 + (elapsed / train_timeout) * 0.50, 0.80)`. -/
def trainRamp (config : ProcessingConfig) (elapsed : ℚ) : ℚ :=
  min ((0.30 : ℚ) + elapsed / config.train_timeout * (0.50 : ℚ)) (0.80 : ℚ)

/-- The message attached to a training progress sample. -/
def trainMessage (elapsed : ℚ) : String :=
  s!"模型训练中... (已用时: {elapsed}s)"

/-- Progress events emitted by the training monitor loop: at each
elapsed-time sample the loop first checks the timeout (terminating and
raising without a further callback when exceeded) and otherwise reports
the ramp value. -/
def trainingEvents (config : ProcessingConfig) : List ℚ → List (ℚ × String)
  | [] => []
  | elapsed :: rest =>
    if elapsed > config.train_timeout then []
    else (trainRamp config elapsed, trainMessage elapsed) :: trainingEvents config rest

/-- Whether the monitor loop hit the timeout. -/
def trainingTimedOut (config : ProcessingConfig) : List ℚ → Bool
  | [] => false
  | elapsed :: rest =>
    if elapsed > config.train_timeout then true else trainingTimedOut config rest

/-- `ReconstructionProcessor._run_training`: the emitted progress events
and whether the stage succeeded (a timeout or a non-zero exit both yield
`False`). -/
def run_training (config : ProcessingConfig) (env : SceneEnv) :
    List (ℚ × String) × Bool :=
  (trainingEvents config env.train_elapsed_samples,
   if trainingTimedOut config env.train_elapsed_samples then false
   else env.train_exit_ok)

/-- The too-few-images error raised before any stage runs. -/
def min_images_error (n : Nat) : String :=
  s!"三维重建需要至少3张图像，当前只有{n}张"

/-- The missing-images-directory error. -/
def images_dir_error (images_dir : String) : String :=
  s!"Images directory not found: {images_dir}"

/-- Trace of one `process_reconstruction` run: the progress-callback
invocations in order, the stages whose subprocess was launched, and the
returned `ReconstructionResult`. -/
structure ExecTrace where
  events : List (ℚ × String)
  stages : List Stage
  result : ReconstructionResult
deriving DecidableEq, Repr

/-- The `ReconstructionResult` built in the `except` handler: when the
failure happens before `output_dir` is assigned the field is the empty
string. -/
def failureResult (env : SceneEnv) (output_dir : String) (msg : String) :
    ReconstructionResult :=
  { success := false
    output_dir := output_dir
    metrics := []
    files := []
    processing_time := env.wall_time
    error_message := some msg }

/-- `ReconstructionProcessor.process_reconstruction`: validate the input
layout (an existing images directory with at least 3 jpg/png files), then
run geometry initialization and training, reporting progress at 0.05,
0.15, 0.30, the training ramp, 0.85 and 1.0; any failure is caught and
returned as an unsuccessful result. -/
def process_reconstruction (config : ProcessingConfig) (env : SceneEnv)
    (scene_path : String) : ExecTrace :=
  let ev0 : List (ℚ × String) := [((0.05 : ℚ), "验证输入目录结构...")]
  if !env.images_dir_exists then
    { events := ev0
      stages := []
      result := failureResult env "" (images_dir_error (scene_path ++ "/images")) }
  else if env.num_images < 3 then
    { events := ev0
      stages := []
      result := failureResult env "" (min_images_error env.num_images) }
  else
    let n_views := env.num_images
    let output_dir := scene_path ++ "/" ++ toString n_views ++ "_views"
    let ev1 := ev0 ++ [((0.15 : ℚ), "执行几何初始化...")]
    if !env.init_ok then
      { events := ev1
        stages := [.geometry_initialization]
        result := failureResult env output_dir "Geometry initialization failed" }
    else
      let ev2 := ev1 ++ [((0.30 : ℚ), "开始模型训练...")]
      let tr := run_training config env
      let ev3 := ev2 ++ tr.1
      if !tr.2 then
        { events := ev3
          stages := [.geometry_initialization, .training]
          result := failureResult env output_dir "Training failed" }
      else
        { events := ev3 ++ [((0.85 : ℚ), "收集训练结果..."), ((1 : ℚ), "重建完成")]
          stages := [.geometry_initialization, .training]
          result :=
            { success := true
              output_dir := output_dir
              metrics := env.metrics
              files := env.collected_files
              processing_time := env.wall_time
              error_message := none } }

/-! ### Registry lemmas -/

theorem lookup_insertTask_self (tm : TaskMap) (task_id : String) (t : TaskInfo) :
    lookupTask (insertTask tm task_id t) task_id = some t := by
  induction tm with
  | nil => simp [insertTask, lookupTask]
  | cons hd tl ih =>
    obtain ⟨k, v⟩ := hd
    by_cases hk : k = task_id
    · simp [insertTask, lookupTask, hk]
    · simp [insertTask, lookupTask, hk, ih]

theorem lookup_none_not_key (tm : TaskMap) (task_id : String)
    (h : lookupTask tm task_id = none) :
    ∀ p ∈ tm, p.1 ≠ task_id := by
  induction tm with
  | nil => simp
  | cons hd tl ih =>
    obtain ⟨k, v⟩ := hd
    intro p hp
    simp only [lookupTask] at h
    by_cases hk : k = task_id
    · simp [hk] at h
    · rcases List.mem_cons.mp hp with h1 | h1
      · simpa [h1] using hk
      · exact ih (by simpa [hk] using h) p h1

theorem lookup_insertTask_ne (tm : TaskMap) (task_id id2 : String) (t : TaskInfo)
    (h : id2 ≠ task_id) :
    lookupTask (insertTask tm task_id t) id2 = lookupTask tm id2 := by
  induction tm with
  | nil => simp [insertTask, lookupTask, Ne.symm h]
  | cons hd tl ih =>
    obtain ⟨k, v⟩ := hd
    by_cases hk : k = task_id
    · subst hk
      simp [insertTask, lookupTask, Ne.symm h]
    · simp only [insertTask, if_neg hk, lookupTask]
      by_cases hk2 : k = id2
      · simp [hk2]
      · simp [hk2, ih]

/-! ### Sample fixtures used in concrete counterexamples and witnesses -/

/-- A freshly created pending task. -/
def sampleTask : TaskInfo :=
  { task_id := "t"
    task_type := .video_reconstruction
    status := .pending
    created_at := 0
    updated_at := 0
    progress := {}
    input_data := [] }

/-- A registry holding only `sampleTask`. -/
def sampleMap : TaskMap := [("t", sampleTask)]

/-- A task already in the terminal `completed` state. -/
def completedTask : TaskInfo := { sampleTask with status := .completed }

/-- A registry holding only `completedTask`. -/
def completedMap : TaskMap := [("t", completedTask)]

/-! ### Claim C5 -/

/-- Claim C5: for all `(completed, total)` with `0 ≤ completed ≤ total` and
`total > 0`, the percentage computed by `update_task_progress` equals
`100 * completed / total`, lies in `[0, 100]`, and is exactly what gets
stored in the task's progress record; and `percentage 0 0 = 0` (the
`total_steps > 0` guard avoids the division). -/
theorem percentage_of_update_progress_in_range (completed_steps total_steps : Int)
    (h0 : 0 ≤ completed_steps) (h1 : completed_steps ≤ total_steps)
    (h2 : 0 < total_steps) :
    percentage completed_steps total_steps
        = 100 * (completed_steps : ℚ) / (total_steps : ℚ)
      ∧ 0 ≤ percentage completed_steps total_steps
      ∧ percentage completed_steps total_steps ≤ 100
      ∧ percentage 0 0 = 0
      ∧ ∀ (tm : TaskMap) (task_id current_step message : String) (task : TaskInfo)
          (details : StrMap) (now : ℚ), lookupTask tm task_id = some task →
          (lookupTask (update_task_progress tm task_id current_step completed_steps
              total_steps message details now).1 task_id).map
            (fun t => t.progress.percentage)
            = some (percentage completed_steps total_steps) := by
  have hq2 : (0 : ℚ) < (total_steps : ℚ) := by exact_mod_cast h2
  have hq0 : (0 : ℚ) ≤ (completed_steps : ℚ) := by exact_mod_cast h0
  have hq1 : (completed_steps : ℚ) ≤ (total_steps : ℚ) := by exact_mod_cast h1
  refine ⟨?_, ?_, ?_, ?_, ?_⟩
  · rw [percentage, if_pos h2]; ring
  · rw [percentage, if_pos h2]
    have := div_nonneg hq0 hq2.le
    linarith
  · rw [percentage, if_pos h2]
    have hdiv : (completed_steps : ℚ) / (total_steps : ℚ) ≤ 1 :=
      (div_le_one hq2).mpr hq1
    linarith
  · simp [percentage]
  · intro tm task_id current_step message task details now hfind
    simp [update_task_progress, hfind, lookup_insertTask_self]

/-- Witness for C5 at `(completed, total) = (1, 4)` on the sample registry:
the stored percentage is `25`. -/
theorem percentage_of_update_progress_in_range_witness :
    percentage 1 4 = 100 * (1 : ℚ) / (4 : ℚ)
      ∧ 0 ≤ percentage 1 4
      ∧ percentage 1 4 ≤ 100
      ∧ percentage 0 0 = 0
      ∧ ∀ (tm : TaskMap) (task_id current_step message : String) (task : TaskInfo)
          (details : StrMap) (now : ℚ), lookupTask tm task_id = some task →
          (lookupTask (update_task_progress tm task_id current_step 1 4 message
              details now).1 task_id).map (fun t => t.progress.percentage)
            = some (percentage 1 4) :=
  percentage_of_update_progress_in_range 1 4 (by decide) (by decide) (by decide)

/-! ### Claim C7 -/

/-- Claim C7: cancelling an existing non-terminal task returns `true` and
sets the status to `cancelled`; a second cancel of the same task returns
`false` and changes nothing; and cancel on a `completed` task returns
`false` (changing nothing). -/
theorem cancel_true_then_false (tm : TaskMap) (task_id : String) (task : TaskInfo)
    (now now2 : ℚ)
    (hfind : lookupTask tm task_id = some task)
    (hnt : task.status ∉ [TaskStatus.completed, TaskStatus.failed, TaskStatus.cancelled]) :
    (cancel_task tm task_id now).2 = true
      ∧ (lookupTask (cancel_task tm task_id now).1 task_id).map TaskInfo.status
          = some .cancelled
      ∧ cancel_task (cancel_task tm task_id now).1 task_id now2
          = ((cancel_task tm task_id now).1, false)
      ∧ ∀ (tm2 : TaskMap) (t2 : TaskInfo), lookupTask tm2 task_id = some t2 →
          t2.status = .completed → cancel_task tm2 task_id now2 = (tm2, false)
  := by
  have hstep : cancel_task tm task_id now
      = (insertTask tm task_id { task with status := .cancelled, updated_at := now },
         true) := by
    simp [cancel_task, hfind, hnt]
  refine ⟨by simp [hstep], ?_, ?_, ?_⟩
  · rw [hstep]
    simp [lookup_insertTask_self]
  · rw [hstep]
    simp only [cancel_task, lookup_insertTask_self]
    simp
  · intro tm2 t2 hfind2 hc2
    simp [cancel_task, hfind2, hc2]

/-- Witness for C7: cancelling the sample pending task succeeds once, then
fails, and cancelling a completed task fails. -/
theorem cancel_true_then_false_witness :
    (cancel_task sampleMap "t" 1).2 = true
      ∧ (lookupTask (cancel_task sampleMap "t" 1).1 "t").map TaskInfo.status
          = some .cancelled
      ∧ cancel_task (cancel_task sampleMap "t" 1).1 "t" 2
          = ((cancel_task sampleMap "t" 1).1, false)
      ∧ ∀ (tm2 : TaskMap) (t2 : TaskInfo), lookupTask tm2 "t" = some t2 →
          t2.status = .completed → cancel_task tm2 "t" 2 = (tm2, false) :=
  cancel_true_then_false sampleMap "t" sampleTask 1 2 (by decide) (by decide)

/-! ### Claim C8 -/

/-- Claim C8: for an existing task id and any result map, `set_task_result`
followed by `get_task` yields a task whose status is `completed`, whose
result equals the given map, and whose `processing_time` is non-nil and
non-negative (assuming the wall clock did not run backwards since the task
was created). -/
theorem set_result_roundtrip (tm : TaskMap) (task_id : String) (task : TaskInfo)
    (result_data : StrMap) (now : ℚ)
    (hfind : lookupTask tm task_id = some task)
    (hclock : task.created_at ≤ now) :
    (set_task_result tm task_id result_data now).2 = true
      ∧ ∃ t2 : TaskInfo,
          get_task (set_task_result tm task_id result_data now).1 task_id = some t2
          ∧ t2.status = .completed
          ∧ t2.result_data = some result_data
          ∧ t2.processing_time = some (now - task.created_at)
          ∧ 0 ≤ now - task.created_at := by
  have hstep : set_task_result tm task_id result_data now
      = (insertTask tm task_id
          { task with
              result_data := some result_data, status := .completed,
              updated_at := now, processing_time := some (now - task.created_at) },
         true) := by
    simp [set_task_result, hfind]
  have hget : get_task (set_task_result tm task_id result_data now).1 task_id
      = some { task with
                 result_data := some result_data, status := .completed,
                 updated_at := now,
                 processing_time := some (now - task.created_at) } := by
    rw [hstep]
    simp [get_task, lookup_insertTask_self]
  exact ⟨by simp [hstep], _, hget, rfl, rfl, rfl, by linarith⟩

/-- Witness for C8 on the sample registry at time `5`. -/
theorem set_result_roundtrip_witness :
    (set_task_result sampleMap "t" [("output", "dir")] 5).2 = true
      ∧ ∃ t2 : TaskInfo,
          get_task (set_task_result sampleMap "t" [("output", "dir")] 5).1 "t" = some t2
          ∧ t2.status = .completed
          ∧ t2.result_data = some [("output", "dir")]
          ∧ t2.processing_time = some (5 - sampleTask.created_at)
          ∧ 0 ≤ 5 - sampleTask.created_at :=
  set_result_roundtrip sampleMap "t" sampleTask [("output", "dir")] 5
    (by decide) (by decide)

/-! ### Claim C1 -/

/-- Counterexample to C1 as stated: on a registry holding only a task in
the terminal `completed` state, a subsequent `update_task_status` call
changes the status field to `pending` — terminal states are not sticky
against `update_task_status`. -/
theorem terminal_not_sticky_counterexample :
    completedTask.status = .completed
      ∧ (lookupTask (update_task_status completedMap "t" .pending none 1).1 "t").map
          TaskInfo.status = some .pending := by decide

/-- Claim C1 (amended): once a task's status is terminal, a subsequent
`cancel_task` call returns `false` and leaves the registry (hence every
field of the record) unchanged; `update_task_status`,
`update_task_progress` and `set_task_result`, however, still mutate the
record. -/
theorem cancel_leaves_terminal_unchanged (tm : TaskMap) (task_id : String)
    (task : TaskInfo) (now : ℚ)
    (hfind : lookupTask tm task_id = some task)
    (hterm : task.status ∈ [TaskStatus.completed, TaskStatus.failed, TaskStatus.cancelled]) :
    cancel_task tm task_id now = (tm, false) := by
  simp only [List.mem_cons, List.mem_singleton, List.not_mem_nil, or_false] at hterm
  simp [cancel_task, hfind, hterm]

/-- Witness for the amended C1 on the completed sample task. -/
theorem cancel_leaves_terminal_unchanged_witness :
    cancel_task completedMap "t" 1 = (completedMap, false) :=
  cancel_leaves_terminal_unchanged completedMap "t" completedTask 1
    (by decide) (by decide)

/-! ### Claim C2 -/

/-- An input map carrying an explicit `task_id` key. -/
def dupInput : StrMap := [("task_id", "t")]

/-- Counterexample to C2 as stated: two `create_task` calls whose input
carries the same `task_id` key return the same id, and the second call
overwrites the record stored by the first. -/
theorem create_reuses_id_counterexample :
    (create_task [] .video_reconstruction dupInput "u1" 0).2
        = (create_task (create_task [] .video_reconstruction dupInput "u1" 0).1
            .image_reconstruction dupInput "u2" 5).2
      ∧ lookupTask (create_task (create_task [] .video_reconstruction dupInput "u1" 0).1
            .image_reconstruction dupInput "u2" 5).1 "t"
          ≠ lookupTask (create_task [] .video_reconstruction dupInput "u1" 0).1 "t"
  := by decide

/-- Claim C2 (amended): when the input map does not carry a `task_id` key,
`create_task` returns the freshly generated uuid; provided that uuid is
not already a registry key (uuid uniqueness), the new id is distinct from
every existing id and no existing record is replaced — every other id
still maps to its previous record. When the input does carry `task_id`,
that id is used verbatim and an existing record under it is overwritten. -/
theorem create_fresh_id_no_overwrite (tm : TaskMap) (task_type : TaskType)
    (input_data : StrMap) (fresh_uuid : String) (now : ℚ)
    (hin : lookupStr input_data "task_id" = none)
    (hfresh : lookupTask tm fresh_uuid = none) :
    (create_task tm task_type input_data fresh_uuid now).2 = fresh_uuid
      ∧ (∀ p ∈ tm, p.1 ≠ fresh_uuid)
      ∧ lookupTask (create_task tm task_type input_data fresh_uuid now).1 fresh_uuid
          = some { task_id := fresh_uuid, task_type := task_type, status := .pending,
                   created_at := now, updated_at := now, progress := {},
                   input_data := input_data }
      ∧ ∀ id2 : String, id2 ≠ fresh_uuid →
          lookupTask (create_task tm task_type input_data fresh_uuid now).1 id2
            = lookupTask tm id2 := by
  refine ⟨by simp [create_task, hin], lookup_none_not_key tm fresh_uuid hfresh, ?_, ?_⟩
  · simp [create_task, hin, lookup_insertTask_self]
  · intro id2 hne
    simp [create_task, hin, lookup_insertTask_ne _ _ _ _ hne]

/-- Witness for the amended C2: creating with an input map lacking
`task_id` on the sample registry uses the fresh uuid and leaves the
existing record alone. -/
theorem create_fresh_id_no_overwrite_witness :
    (create_task sampleMap .video_reconstruction [] "u1" 3).2 = "u1"
      ∧ (∀ p ∈ sampleMap, p.1 ≠ "u1")
      ∧ lookupTask (create_task sampleMap .video_reconstruction [] "u1" 3).1 "u1"
          = some { task_id := "u1", task_type := .video_reconstruction,
                   status := .pending, created_at := 3, updated_at := 3,
                   progress := {}, input_data := [] }
      ∧ ∀ id2 : String, id2 ≠ "u1" →
          lookupTask (create_task sampleMap .video_reconstruction [] "u1" 3).1 id2
            = lookupTask sampleMap id2 :=
  create_fresh_id_no_overwrite sampleMap .video_reconstruction [] "u1" 3
    (by decide) (by decide)

/-! ### Claim C3 -/

/-- Counterexample to C3 as stated: `update_task_status` with the
non-terminal status `processing` and a non-empty message stores the
message, so `error_message` is non-nil while the status is not `failed` —
both directions required by the claim fail. -/
theorem error_message_iff_counterexample :
    (lookupTask (update_task_status sampleMap "t" .processing (some "boom") 1).1 "t").map
      (fun t => (t.status, t.error_message)) = some (.processing, some "boom") := by
  decide

/-- Claim C3 (amended): `update_task_status` stores any non-empty message
it is given together with the new status, whatever that status is, and
when given no message it leaves `error_message` at its previous value
(also when the new status is `failed`); the result payload is set, with
status `completed`, by `set_task_result`. The stated biconditionals do
not hold of the code. -/
theorem error_message_follows_argument (tm : TaskMap) (task_id : String)
    (task : TaskInfo) (status : TaskStatus) (message : String) (now : ℚ)
    (hfind : lookupTask tm task_id = some task)
    (hmsg : message ≠ "") :
    (lookupTask (update_task_status tm task_id status (some message) now).1 task_id).map
        (fun t => (t.status, t.error_message)) = some (status, some message)
      ∧ (lookupTask (update_task_status tm task_id status none now).1 task_id).map
          (fun t => t.error_message) = some task.error_message
      ∧ (lookupTask (set_task_result tm task_id [] now).1 task_id).map
          (fun t => (t.status, t.result_data)) = some (.completed, some []) := by
  have hb : pyTruthy (some message) = true := by
    simp [pyTruthy, hmsg]
  refine ⟨?_, ?_, ?_⟩
  · by_cases hts : status ∈ [TaskStatus.completed, TaskStatus.failed] <;>
      simp [update_task_status, hfind, hb, hts, lookup_insertTask_self]
  · by_cases hts : status ∈ [TaskStatus.completed, TaskStatus.failed] <;>
      simp [update_task_status, hfind, pyTruthy, hts, lookup_insertTask_self]
  · simp [set_task_result, hfind, lookup_insertTask_self]

/-- Witness for the amended C3 on the sample registry. -/
theorem error_message_follows_argument_witness :
    (lookupTask (update_task_status sampleMap "t" .processing (some "boom") 1).1 "t").map
        (fun t => (t.status, t.error_message)) = some (.processing, some "boom")
      ∧ (lookupTask (update_task_status sampleMap "t" .processing none 1).1 "t").map
          (fun t => t.error_message) = some sampleTask.error_message
      ∧ (lookupTask (set_task_result sampleMap "t" [] 1).1 "t").map
          (fun t => (t.status, t.result_data)) = some (.completed, some []) :=
  error_message_follows_argument sampleMap "t" sampleTask .processing "boom" 1
    (by decide) (by decide)

/-! ### Claim C4 -/

/-- Counterexample to C4 as stated: `cancel_task` moves a pending task to
the terminal `cancelled` state but leaves `processing_time` nil — the
cancel path never computes it. -/
theorem cancel_skips_processing_time_counterexample :
    (lookupTask (cancel_task sampleMap "t" 1).1 "t").map
      (fun t => (t.status, t.processing_time)) = some (.cancelled, none) := by decide

/-- Claim C4 (amended): `processing_time` is set to
`updated_at - created_at` the moment a status mutation moves the task to
`completed` or `failed` (via `update_task_status`; `set_task_result` does
the same); an explicit cancel reaches the terminal `cancelled` state
without ever setting `processing_time`. -/
theorem processing_time_on_completed_or_failed (tm : TaskMap) (task_id : String)
    (task : TaskInfo) (status : TaskStatus) (error_message : Option String) (now : ℚ)
    (hfind : lookupTask tm task_id = some task)
    (hterm : status = TaskStatus.completed ∨ status = TaskStatus.failed) :
    (update_task_status tm task_id status error_message now).2 = true
      ∧ (lookupTask (update_task_status tm task_id status error_message now).1
          task_id).map (fun t => (t.updated_at, t.processing_time))
          = some (now, some (now - task.created_at))
      ∧ ∀ (tm2 : TaskMap) (t2 : TaskInfo), lookupTask tm2 task_id = some t2 →
          t2.status ∉ [TaskStatus.completed, TaskStatus.failed, TaskStatus.cancelled] →
          (lookupTask (cancel_task tm2 task_id now).1 task_id).map
            (fun t => (t.status, t.processing_time))
            = some (.cancelled, t2.processing_time) := by
  have hmem : status ∈ [TaskStatus.completed, TaskStatus.failed] := by
    rcases hterm with h | h <;> simp [h]
  refine ⟨?_, ?_, ?_⟩
  · by_cases hb : pyTruthy error_message <;>
      simp [update_task_status, hfind, hb, hmem]
  · by_cases hb : pyTruthy error_message <;>
      simp [update_task_status, hfind, hb, hmem, lookup_insertTask_self]
  · intro tm2 t2 hfind2 hnt2
    simp [cancel_task, hfind2, hnt2, lookup_insertTask_self]

/-- Witness for the amended C4: completing the sample task at time `2`
stores `processing_time = 2 - 0`. -/
theorem processing_time_on_completed_or_failed_witness :
    (update_task_status sampleMap "t" .completed none 2).2 = true
      ∧ (lookupTask (update_task_status sampleMap "t" .completed none 2).1 "t").map
          (fun t => (t.updated_at, t.processing_time))
          = some (2, some (2 - sampleTask.created_at))
      ∧ ∀ (tm2 : TaskMap) (t2 : TaskInfo), lookupTask tm2 "t" = some t2 →
          t2.status ∉ [TaskStatus.completed, TaskStatus.failed, TaskStatus.cancelled] →
          (lookupTask (cancel_task tm2 "t" 2).1 "t").map
            (fun t => (t.status, t.processing_time))
            = some (.cancelled, t2.processing_time) :=
  processing_time_on_completed_or_failed sampleMap "t" sampleTask .completed none 2
    (by decide) (Or.inl rfl)

/-! ### Claim C10 -/

/-- Counterexample to C10 as stated: `set_field` targeting `updated_at`
does not store the supplied value verbatim — the assignment is
immediately overwritten with the current time. -/
theorem set_field_updated_at_counterexample :
    (lookupTask (set_field sampleMap "t" (.fUpdatedAt 5) 7).1 "t").map
      TaskInfo.updated_at = some 7 ∧ (7 : ℚ) ≠ 5 := by decide

/-- Claim C10 (amended): for every existing task id — regardless of
status, including terminal statuses — `set_field` returns `true` and sets
the named field to the given value verbatim for every field other than
`updated_at` (whose assigned value is immediately overwritten with the
current time); it performs no state-machine or terminal-stickiness check,
unlike `cancel_task`. -/
theorem set_field_bypasses_state_machine (tm : TaskMap) (task_id : String)
    (task : TaskInfo) (a : FieldAssignment) (now : ℚ)
    (hfind : lookupTask tm task_id = some task)
    (ha : targetsUpdatedAt a = false) :
    (set_field tm task_id a now).2 = true
      ∧ ∃ t2 : TaskInfo,
          lookupTask (set_field tm task_id a now).1 task_id = some t2
          ∧ fieldHolds a t2 = true
          ∧ t2.updated_at = now := by
  have hstep : set_field tm task_id a now
      = (insertTask tm task_id { setattrField task a with updated_at := now }, true)
    := by
    simp [set_field, hfind]
  refine ⟨by simp [hstep], ?_⟩
  refine ⟨_, by rw [hstep]; exact lookup_insertTask_self _ _ _, ?_, rfl⟩
  cases a <;> simp_all [fieldHolds, setattrField, targetsUpdatedAt]

/-- Witness for the amended C10: overwriting the status field of a
`completed` (terminal) task with `pending` succeeds, bypassing the
terminal-stickiness check. -/
theorem set_field_bypasses_state_machine_witness :
    (set_field completedMap "t" (.fStatus .pending) 9).2 = true
      ∧ ∃ t2 : TaskInfo,
          lookupTask (set_field completedMap "t" (.fStatus .pending) 9).1 "t" = some t2
          ∧ fieldHolds (.fStatus .pending) t2 = true
          ∧ t2.updated_at = 9 :=
  set_field_bypasses_state_machine completedMap "t" completedTask (.fStatus .pending) 9
    (by decide) (by decide)

/-! ### Claim C6 -/

/-- Claim C6: when the images directory exists but holds fewer than 3
image files, `process_reconstruction` returns an unsuccessful result
carrying the at-least-3-images error message, launches no stage
subprocess, emits no progress beyond the initial validation message (in
particular nothing a caller could map to `processing`), and reports an
empty output directory. -/
theorem too_few_images_fails_fast (config : ProcessingConfig) (env : SceneEnv)
    (scene_path : String)
    (hdir : env.images_dir_exists = true)
    (hn : env.num_images < 3) :
    (process_reconstruction config env scene_path).result.success = false
      ∧ (process_reconstruction config env scene_path).result.error_message
          = some (min_images_error env.num_images)
      ∧ (process_reconstruction config env scene_path).stages = []
      ∧ (process_reconstruction config env scene_path).events
          = [((0.05 : ℚ), "验证输入目录结构...")]
      ∧ (process_reconstruction config env scene_path).result.output_dir = "" := by
  simp [process_reconstruction, hdir, hn, failureResult]

/-- A scene environment with only two images. -/
def twoImageEnv : SceneEnv :=
  { images_dir_exists := true
    num_images := 2
    init_ok := true
    train_elapsed_samples := []
    train_exit_ok := true
    wall_time := 0
    collected_files := []
    metrics := [] }

/-- Witness for C6 on a two-image scene. -/
theorem too_few_images_fails_fast_witness :
    (process_reconstruction {} twoImageEnv "scene").result.success = false
      ∧ (process_reconstruction {} twoImageEnv "scene").result.error_message
          = some (min_images_error twoImageEnv.num_images)
      ∧ (process_reconstruction {} twoImageEnv "scene").stages = []
      ∧ (process_reconstruction {} twoImageEnv "scene").events
          = [((0.05 : ℚ), "验证输入目录结构...")]
      ∧ (process_reconstruction {} twoImageEnv "scene").result.output_dir = "" :=
  too_few_images_fails_fast {} twoImageEnv "scene" rfl (by decide)

/-! ### Claim C9 -/

theorem trainRamp_le_080 (config : ProcessingConfig) (elapsed : ℚ) :
    trainRamp config elapsed ≤ (0.80 : ℚ) :=
  min_le_right _ _

theorem trainRamp_ge_030 (config : ProcessingConfig) (elapsed : ℚ)
    (hT : 0 < config.train_timeout) (he : 0 ≤ elapsed) :
    (0.30 : ℚ) ≤ trainRamp config elapsed := by
  have h1 : (0 : ℚ) ≤ elapsed / config.train_timeout * (0.50 : ℚ) := by positivity
  have h2 : (0.30 : ℚ) ≤ (0.30 : ℚ) + elapsed / config.train_timeout * (0.50 : ℚ) := by
    linarith
  exact le_min h2 (by norm_num)

theorem trainRamp_mono (config : ProcessingConfig) (hT : 0 < config.train_timeout)
    {e1 e2 : ℚ} (h : e1 ≤ e2) :
    trainRamp config e1 ≤ trainRamp config e2 := by
  apply min_le_min _ le_rfl
  have h1 : e1 / config.train_timeout ≤ e2 / config.train_timeout :=
    (div_le_div_iff_of_pos_right hT).mpr h
  have h2 := mul_le_mul_of_nonneg_right h1 (by norm_num : (0 : ℚ) ≤ 0.50)
  linarith

theorem mem_of_headq {l : List ℚ} {a : ℚ} (h : l.head? = some a) : a ∈ l := by
  cases l with
  | nil => simp at h
  | cons x xs =>
    simp only [List.head?] at h
    simp [← Option.some_inj.mp h]

theorem mem_of_lastq {l : List ℚ} {a : ℚ} (h : l.getLast? = some a) : a ∈ l := by
  induction l with
  | nil => simp at h
  | cons x xs ih =>
    cases xs with
    | nil =>
      simp only [List.getLast?_singleton] at h
      simp [← Option.some_inj.mp h]
    | cons y ys =>
      rw [List.getLast?_cons_cons] at h
      exact List.mem_cons_of_mem x (ih h)

/-- Every progress fraction the training monitor emits is the ramp value
of one of the observed elapsed-time samples. -/
theorem trainingEvents_fst_mem (config : ProcessingConfig) (samples : List ℚ) (p : ℚ)
    (hp : p ∈ (trainingEvents config samples).map Prod.fst) :
    ∃ e ∈ samples, p = trainRamp config e := by
  induction samples with
  | nil => simp [trainingEvents] at hp
  | cons e rest ih =>
    by_cases he : e > config.train_timeout
    · simp [trainingEvents, he] at hp
    · simp only [trainingEvents, if_neg he, List.map_cons, List.mem_cons] at hp
      rcases hp with h | h
      · exact ⟨e, by simp, h⟩
      · obtain ⟨e2, he2, hpe⟩ := ih h
        exact ⟨e2, by simp [he2], hpe⟩

/-- The training monitor's emitted fractions are monotone when the
elapsed-time samples are. -/
theorem trainingEvents_fst_chain (config : ProcessingConfig)
    (hT : 0 < config.train_timeout) :
    ∀ samples : List ℚ, List.Chain' (· ≤ ·) samples →
      List.Chain' (· ≤ ·) ((trainingEvents config samples).map Prod.fst) := by
  intro samples
  induction samples with
  | nil => intro h; simp [trainingEvents]
  | cons e rest ih =>
    intro h
    rw [List.chain'_cons'] at h
    by_cases he : e > config.train_timeout
    · simp [trainingEvents, he]
    · simp only [trainingEvents, if_neg he, List.map_cons]
      rw [List.chain'_cons']
      refine ⟨?_, ih h.2⟩
      intro y hy
      cases rest with
      | nil => simp [trainingEvents] at hy
      | cons e2 rest2 =>
        by_cases he2 : e2 > config.train_timeout
        · simp [trainingEvents, he2] at hy
        · simp only [trainingEvents, if_neg he2, List.map_cons, List.head?,
            Option.mem_def, Option.some_inj] at hy
          subst hy
          exact trainRamp_mono config hT (h.1 e2 (by simp))

/-- Glue: a monotone list bounded within `[0.30, 0.80]` stays a monotone
chain when preceded by `0.05, 0.15, 0.30`. -/
theorem chain_with_prelude (L : List ℚ) (hL : List.Chain' (· ≤ ·) L)
    (hmem : ∀ p ∈ L, (0.30 : ℚ) ≤ p ∧ p ≤ (0.80 : ℚ)) :
    List.Chain' (· ≤ ·) ((0.05 : ℚ) :: (0.15 : ℚ) :: (0.30 : ℚ) :: L) := by
  rw [List.chain'_cons, List.chain'_cons, List.chain'_cons']
  refine ⟨by norm_num, by norm_num, ?_, hL⟩
  intro y hy
  exact (hmem y (mem_of_headq hy)).1

/-- Glue: the same prelude followed by the post-training reports
`0.85, 1` is still a monotone chain. -/
theorem chain_with_prelude_and_tail (L : List ℚ) (hL : List.Chain' (· ≤ ·) L)
    (hmem : ∀ p ∈ L, (0.30 : ℚ) ≤ p ∧ p ≤ (0.80 : ℚ)) :
    List.Chain' (· ≤ ·)
      ((0.05 : ℚ) :: (0.15 : ℚ) :: (0.30 : ℚ) :: (L ++ [(0.85 : ℚ), (1 : ℚ)])) := by
  rw [List.chain'_cons, List.chain'_cons, List.chain'_cons']
  refine ⟨by norm_num, by norm_num, ?_, ?_⟩
  · intro y hy
    cases L with
    | nil =>
      simp only [List.nil_append, List.head?, Option.mem_def, Option.some_inj] at hy
      subst hy; norm_num
    | cons p L2 =>
      simp only [List.cons_append, List.head?, Option.mem_def, Option.some_inj] at hy
      subst hy
      exact (hmem p (by simp)).1
  · rw [List.chain'_append]
    refine ⟨hL, by norm_num, ?_⟩
    intro x hx y hy
    simp only [List.head?, Option.mem_def, Option.some_inj] at hy
    subst hy
    have := (hmem x (mem_of_lastq hx)).2
    linarith

/-- Bounds transfer: with the training fractions inside `[0.30, 0.80]`,
every fraction of a full successful run lies in `[0, 1]`. -/
theorem mem_with_prelude_and_tail (L : List ℚ)
    (hmem : ∀ p ∈ L, (0.30 : ℚ) ≤ p ∧ p ≤ (0.80 : ℚ)) :
    ∀ p ∈ (0.05 : ℚ) :: (0.15 : ℚ) :: (0.30 : ℚ) :: (L ++ [(0.85 : ℚ), (1 : ℚ)]),
      0 ≤ p ∧ p ≤ 1 := by
  intro p hp
  simp only [List.mem_cons, List.mem_append, List.mem_singleton, List.not_mem_nil,
    or_false] at hp
  rcases hp with h | h | h | h | h | h
  · subst h; norm_num
  · subst h; norm_num
  · subst h; norm_num
  · obtain ⟨h1, h2⟩ := hmem p h
    constructor <;> linarith
  · subst h; norm_num
  · subst h; norm_num

/-- Bounds transfer for a run whose training stage fails. -/
theorem mem_with_prelude (L : List ℚ)
    (hmem : ∀ p ∈ L, (0.30 : ℚ) ≤ p ∧ p ≤ (0.80 : ℚ)) :
    ∀ p ∈ (0.05 : ℚ) :: (0.15 : ℚ) :: (0.30 : ℚ) :: L, 0 ≤ p ∧ p ≤ 1 := by
  intro p hp
  simp only [List.mem_cons] at hp
  rcases hp with h | h | h | h
  · subst h; norm_num
  · subst h; norm_num
  · subst h; norm_num
  · obtain ⟨h1, h2⟩ := hmem p h
    constructor <;> linarith

/-- Claim C9: in every run of `process_reconstruction` the sequence of
progress fractions handed to the callback is monotonically non-decreasing
and every value lies in `[0, 1]`, provided the elapsed-time samples of
the training monitor are non-negative and non-decreasing (the wall clock
does not run backwards) and the configured training timeout is positive;
moreover every training-ramp value is at most `0.85`, the fraction
reported after training succeeds. -/
theorem progress_fractions_monotone_in_range (config : ProcessingConfig)
    (env : SceneEnv) (scene_path : String)
    (hT : 0 < config.train_timeout)
    (hchain : List.Chain' (· ≤ ·) env.train_elapsed_samples)
    (hpos : ∀ e ∈ env.train_elapsed_samples, 0 ≤ e) :
    List.Chain' (· ≤ ·)
        ((process_reconstruction config env scene_path).events.map Prod.fst)
      ∧ (∀ p ∈ (process_reconstruction config env scene_path).events.map Prod.fst,
          0 ≤ p ∧ p ≤ 1)
      ∧ ∀ elapsed : ℚ, trainRamp config elapsed ≤ (0.85 : ℚ) := by
  have hLchain := trainingEvents_fst_chain config hT env.train_elapsed_samples hchain
  have hLmem : ∀ p ∈ (trainingEvents config env.train_elapsed_samples).map Prod.fst,
      (0.30 : ℚ) ≤ p ∧ p ≤ (0.80 : ℚ) := by
    intro p hp
    obtain ⟨e, he, rfl⟩ := trainingEvents_fst_mem config _ p hp
    exact ⟨trainRamp_ge_030 config e hT (hpos e he), trainRamp_le_080 config e⟩
  have hramp : ∀ elapsed : ℚ, trainRamp config elapsed ≤ (0.85 : ℚ) := fun e =>
    le_trans (trainRamp_le_080 config e) (by norm_num)
  have key : List.Chain' (· ≤ ·)
        ((process_reconstruction config env scene_path).events.map Prod.fst)
      ∧ ∀ p ∈ (process_reconstruction config env scene_path).events.map Prod.fst,
          0 ≤ p ∧ p ≤ 1 := by
    by_cases hdir : env.images_dir_exists = true
    · by_cases hn : env.num_images < 3
      · have hev : (process_reconstruction config env scene_path).events.map Prod.fst
            = [(0.05 : ℚ)] := by
          simp [process_reconstruction, hdir, hn]
        rw [hev]
        refine ⟨by simp, ?_⟩
        intro p hp
        simp only [List.mem_singleton] at hp
        subst hp
        norm_num
      · by_cases hinit : env.init_ok = true
        · have hfst : (run_training config env).1
              = trainingEvents config env.train_elapsed_samples := rfl
          by_cases hok : (run_training config env).2 = true
          · have hev : (process_reconstruction config env scene_path).events.map Prod.fst
                = (0.05 : ℚ) :: (0.15 : ℚ) :: (0.30 : ℚ) ::
                  ((trainingEvents config env.train_elapsed_samples).map Prod.fst
                    ++ [(0.85 : ℚ), (1 : ℚ)]) := by
              simp [process_reconstruction, hdir, hn, hinit, hok, hfst]
            rw [hev]
            exact ⟨chain_with_prelude_and_tail _ hLchain hLmem,
                   mem_with_prelude_and_tail _ hLmem⟩
          · simp only [Bool.not_eq_true] at hok
            have hev : (process_reconstruction config env scene_path).events.map Prod.fst
                = (0.05 : ℚ) :: (0.15 : ℚ) :: (0.30 : ℚ) ::
                  (trainingEvents config env.train_elapsed_samples).map Prod.fst := by
              simp [process_reconstruction, hdir, hn, hinit, hok, hfst]
            rw [hev]
            exact ⟨chain_with_prelude _ hLchain hLmem, mem_with_prelude _ hLmem⟩
        · have hev : (process_reconstruction config env scene_path).events.map Prod.fst
              = [(0.05 : ℚ), (0.15 : ℚ)] := by
            simp only [Bool.not_eq_true] at hinit
            simp [process_reconstruction, hdir, hn, hinit]
          rw [hev]
          refine ⟨by simp [List.chain'_cons]; norm_num, ?_⟩
          intro p hp
          simp only [List.mem_cons, List.mem_singleton, List.not_mem_nil,
            or_false] at hp
          rcases hp with h | h <;> (subst h; norm_num)
    · have hev : (process_reconstruction config env scene_path).events.map Prod.fst
          = [(0.05 : ℚ)] := by
        simp only [Bool.not_eq_true] at hdir
        simp [process_reconstruction, hdir]
      rw [hev]
      refine ⟨by simp, ?_⟩
      intro p hp
      simp only [List.mem_singleton] at hp
      subst hp
      norm_num
  exact ⟨key.1, key.2, hramp⟩

/-- A healthy five-image scene whose training monitor samples elapsed
times `0, 5, 10` seconds. -/
def fiveImageEnv : SceneEnv :=
  { images_dir_exists := true
    num_images := 5
    init_ok := true
    train_elapsed_samples := [0, 5, 10]
    train_exit_ok := true
    wall_time := 7
    collected_files := [("point_cloud", "point_cloud.ply")]
    metrics := [] }

/-- Witness for C9 on a successful five-image run. -/
theorem progress_fractions_monotone_in_range_witness :
    ((0 : ℚ) < ({} : ProcessingConfig).train_timeout
        ∧ List.Chain' (· ≤ ·) fiveImageEnv.train_elapsed_samples
        ∧ ∀ e ∈ fiveImageEnv.train_elapsed_samples, 0 ≤ e)
      ∧ (List.Chain' (· ≤ ·)
            ((process_reconstruction {} fiveImageEnv "scene").events.map Prod.fst)
          ∧ (∀ p ∈ (process_reconstruction {} fiveImageEnv "scene").events.map Prod.fst,
              0 ≤ p ∧ p ≤ 1)
          ∧ ∀ elapsed : ℚ, trainRamp {} elapsed ≤ (0.85 : ℚ)) :=
  ⟨⟨show (0 : ℚ) < 1800 by norm_num,
    show List.Chain' (· ≤ ·) ([0, 5, 10] : List ℚ) by
      simp [List.chain'_cons]
      norm_num,
    show ∀ e ∈ ([0, 5, 10] : List ℚ), 0 ≤ e by
      intro e he
      simp only [List.mem_cons, List.mem_singleton, List.not_mem_nil, or_false] at he
      rcases he with h | h | h <;> (subst h; norm_num)⟩,
   progress_fractions_monotone_in_range {} fiveImageEnv "scene"
     (show (0 : ℚ) < 1800 by norm_num)
     (show List.Chain' (· ≤ ·) ([0, 5, 10] : List ℚ) by
       simp [List.chain'_cons]
       norm_num)
     (show ∀ e ∈ ([0, 5, 10] : List ℚ), 0 ≤ e by
       intro e he
       simp only [List.mem_cons, List.mem_singleton, List.not_mem_nil, or_false] at he
       rcases he with h | h | h <;> (subst h; norm_num))⟩

end InstantSplat
